import Mathlib

/-!
Shallow embedding of the news-deduplication engine of
`src/Finance/data_process.py` (class `NewsDeduplicator`), together with
proofs about its behaviour.

External libraries used by the Python code (`unicodedata.normalize('NFKC',.)`,
`jieba.cut`, `hashlib.md5`, and scikit-learn's `TfidfVectorizer` plus
`cosine_similarity`) are not code of this repository; they are modelled as
components of a `Libs` record, and the facts about them that a proof needs
(all of them true of the real libraries) are taken as explicit hypotheses.
Everything written by the repository itself (normalisation pipeline, the
Levenshtein DP, MinHash/SimHash, thresholds, the deduplication loop and the
CSV row processing) is translated directly from the source.
-/

namespace NewsDedup

/-- Space character, written via its code point. -/
def spaceChar : Char := Char.ofNat 32

/-- Model of Python's regex class `\s` on `str` (the characters with the
Unicode white-space property, as matched by `re.sub(r'\s+', ' ', ...)` at
line 30 of `data_process.py`). -/
def isPyWS (c : Char) : Bool :=
  let n := c.toNat
  (9 ≤ n && n ≤ 13) || n == 32 || (28 ≤ n && n ≤ 31) || n == 0x85 || n == 0xa0 ||
    n == 0x1680 || (0x2000 ≤ n && n ≤ 0x200a) || n == 0x2028 || n == 0x2029 ||
    n == 0x202f || n == 0x205f || n == 0x3000

/-- The character classes kept by the filter
`re.sub(r'[^一-龥0-9A-Za-z\s\.\!\?\,\;\:]', '', text)`
(line 32 of `data_process.py`): CJK ideographs U+4E00..U+9FA5, ASCII digits,
ASCII letters, whitespace, and the six listed punctuation marks. -/
def isAllowed (c : Char) : Bool :=
  let n := c.toNat
  (0x4e00 ≤ n && n ≤ 0x9fa5) || (0x30 ≤ n && n ≤ 0x39) || (0x41 ≤ n && n ≤ 0x5a) ||
    (0x61 ≤ n && n ≤ 0x7a) || isPyWS c ||
    c == '.' || c == '!' || c == '?' || c == ',' || c == ';' || c == ':'

/-- Characters on which NFKC normalisation is the identity and that can occur
in the output of `unicode_normalize`: the allowed non-whitespace characters
plus the plain ASCII space. (Other allowed whitespace, e.g. U+00A0, is NOT
NFKC-stable, but it cannot survive the whitespace collapsing step.) -/
def stableChar (c : Char) : Bool :=
  (isAllowed c && !(isPyWS c)) || c == spaceChar

/-- Model of `re.sub(r'\s+', ' ', text)`: every maximal run of whitespace
characters is replaced by a single ASCII space. -/
def squeezeWS : List Char → List Char
  | [] => []
  | [c] => if isPyWS c then [spaceChar] else [c]
  | c :: d :: rest =>
    if isPyWS c then
      if isPyWS d then squeezeWS (d :: rest) else spaceChar :: squeezeWS (d :: rest)
    else c :: squeezeWS (d :: rest)

/-- Model of Python's `str.strip()`: drop leading and trailing whitespace. -/
def pyStrip (l : List Char) : List Char :=
  ((l.dropWhile isPyWS).reverse.dropWhile isPyWS).reverse

/-- True when the list contains no two adjacent whitespace characters. -/
def noDoubleWS : List Char → Bool
  | [] => true
  | [_] => true
  | a :: b :: rest => (!(isPyWS a && isPyWS b)) && noDoubleWS (b :: rest)

/-- True when the list neither starts nor ends with a whitespace character. -/
def noEdgeWS (l : List Char) : Bool :=
  (match l with
   | [] => true
   | c :: _ => !(isPyWS c)) &&
  (match l.reverse with
   | [] => true
   | c :: _ => !(isPyWS c))

/-- Model of a word character for scikit-learn's default token pattern
`(?u)\b\w\w+\b` (Python `\w`), restricted to the character classes that can
reach the vectorizer after `unicode_normalize`: ASCII alphanumerics, the
underscore, and CJK ideographs. -/
def isWordChar (c : Char) : Bool :=
  c.isAlphanum || c == '_' || (0x4e00 ≤ c.toNat && c.toNat ≤ 0x9fff)

/-- Accumulator-based splitting of a character list into its maximal runs of
word characters (the accumulator holds the current run, reversed). -/
def wordRunsAux : List Char → List Char → List (List Char)
  | [], acc => if acc.isEmpty then [] else [acc.reverse]
  | c :: rest, acc =>
    if isWordChar c then wordRunsAux rest (c :: acc)
    else if acc.isEmpty then wordRunsAux rest []
    else acc.reverse :: wordRunsAux rest []

/-- Maximal runs of word characters of a character list. -/
def wordRuns (l : List Char) : List (List Char) := wordRunsAux l []

/-- Model of the token stream scikit-learn's `TfidfVectorizer` (default
configuration, as constructed at line 60 of `data_process.py`) extracts from a
document: lowercase the text, then keep the maximal word-character runs of
length at least two (`token_pattern=r"(?u)\b\w\w+\b"`).  The vectorizer's
vocabulary over a document pair is empty exactly when both documents yield no
tokens, and in that case `fit_transform` raises. -/
def sklearnTokens (s : String) : List String :=
  ((wordRuns (s.data.map Char.toLower)).filter (fun r => decide (2 ≤ r.length))).map
    String.mk

/-- The external library functions used by `NewsDeduplicator`, abstracted:
`nfkc` is `unicodedata.normalize('NFKC', .)`; `jieba` is `list(jieba.cut(.))`;
`md5` is `int(hashlib.md5(utf8 bytes).hexdigest(), 16)` on a string; `fitCos`
is the combination of `TfidfVectorizer(max_features=1000).fit_transform` on a
two-document corpus followed by `cosine_similarity` of the two rows, returning
`none` when `fit_transform` raises (empty vocabulary). -/
structure Libs where
  nfkc : String → String
  jieba : String → List String
  md5 : String → Nat
  fitCos : String → String → Option ℚ

/-- A processed news record (the dict built by `load_and_preprocess_data`;
records fed to `is_duplicate` read only `title` and `doc`, with `.get`
defaulting to the empty string). -/
structure Item where
  source : String := ""
  doc : String := ""
  labels : String := ""
  title : String := ""
  stockSymbol : String := ""
  date : String := ""
  originalIndex : Nat := 0
deriving DecidableEq

/-- Model of `NewsDeduplicator.unicode_normalize` (lines 23-33): empty input
is returned unchanged; otherwise apply NFKC, collapse whitespace runs to a
single space and strip, then delete every character outside the allowed
classes.  Note the deletion happens AFTER the collapsing. -/
def unicode_normalize (L : Libs) (text : String) : String :=
  if text = "" then ""
  else String.mk ((pyStrip (squeezeWS (L.nfkc text).data)).filter isAllowed)

/-- Row `i+1` of the Levenshtein table of `edit_distance` (lines 40-53) as a
function of row `i` (`prev`): `dp[i+1][0] = i+1`, and `dp[i+1][j+1]` is
`dp[i][j]` when `s1[i] == s2[j]`, else `1 + min` of the three neighbours
`dp[i][j+1]`, `dp[i+1][j]`, `dp[i][j]`. -/
def dpNext (s1 s2 : List Char) (i : Nat) (prev : Nat → Nat) : Nat → Nat
  | 0 => i + 1
  | j + 1 =>
    if s1.getD i spaceChar = s2.getD j spaceChar then prev j
    else min (prev (j + 1)) (min (dpNext s1 s2 i prev j) (prev j)) + 1

/-- The full Levenshtein table: `dpTab s1 s2 i j` is `dp[i][j]` of the table
filled by the loops at lines 43-53 of `data_process.py`. -/
def dpTab (s1 s2 : List Char) : Nat → Nat → Nat
  | 0 => fun j => j
  | i + 1 => dpNext s1 s2 i (dpTab s1 s2 i)

/-- Model of `NewsDeduplicator.edit_distance` (lines 35-56): 0 when either
string is empty, otherwise `1 - lev(s1,s2) / max(len s1, len s2)`. -/
def edit_distance (s1 s2 : String) : ℚ :=
  if s1 = "" ∨ s2 = "" then 0
  else
    let m := s1.length
    let n := s2.length
    let d := dpTab s1.data s2.data m n
    if 0 < max m n then 1 - (d : ℚ) / ((max m n : Nat) : ℚ) else 0

/-- Model of `text_to_tfidf_vector` (lines 58-65) combined with the
`cosine_similarity` call of `title_similarity` (line 79): when
`fit_transform` raises, the bare `except` falls back to the all-zero
`(2, 1000)` matrix, and scikit-learn's cosine similarity of two zero rows is
0 (zero rows keep norm 1 during normalisation). -/
def text_to_tfidf_cos (L : Libs) (t1 t2 : String) : ℚ :=
  match L.fitCos t1 t2 with
  | some c => c
  | none => 0

/-- Model of `NewsDeduplicator.title_similarity` (lines 67-86): normalize
both titles, average the normalised edit-distance similarity and the TF-IDF
cosine similarity (the cosine contributes 0 when either normalised title is
empty; the `vectors.shape[0] == 2` guard of line 78 always holds since both
the fitted matrix and the zero fallback have two rows). -/
def title_similarity (L : Libs) (title1 title2 : String) : ℚ :=
  let t1 := unicode_normalize L title1
  let t2 := unicode_normalize L title2
  let editSim := edit_distance t1 t2
  let cosSim := if t1 ≠ "" ∧ t2 ≠ "" then text_to_tfidf_cos L t1 t2 else 0
  (editSim + cosSim) / 2

/-- Number of MinHash permutations (`self.minhash_permutations = 128`). -/
def minhash_permutations : Nat := 128

/-- Model of `NewsDeduplicator.get_shingles` (lines 88-94): normalize, cut
into words with jieba, and return the 3-word shingles; a text with fewer than
3 words yields the singleton containing the whole normalised text.  The
Python `set` is modelled as a list; only membership matters downstream
(MinHash takes minima), so duplicates and order are irrelevant. -/
def get_shingles (L : Libs) (text : String) : List String :=
  let t := unicode_normalize L text
  let words := L.jieba t
  if words.length < 3 then [t]
  else (List.range (words.length - 3 + 1)).map
    (fun i => String.intercalate " " ((words.drop i).take 3))

/-- Model of `NewsDeduplicator.minhash_signature` (lines 96-111): an empty
shingle set yields the all-zero sentinel signature; otherwise position `i`
holds the minimum over all shingles of the salted hash
`md5(shingle ++ str(i))` (the `float('inf')` initial value is realised by
starting the minimum at the first shingle's hash). -/
def minhash_signature (L : Libs) (shingles : List String) : List Nat :=
  match shingles with
  | [] => List.replicate minhash_permutations 0
  | s0 :: rest =>
    (List.range minhash_permutations).map (fun i =>
      rest.foldl (fun m sh => min m (L.md5 (sh ++ toString i)))
        (L.md5 (s0 ++ toString i)))

/-- Model of `jaccard_similarity_minhash` (lines 113-118): 0 for signatures
of different lengths, otherwise the fraction of positions where they agree. -/
def jaccard_similarity_minhash (sig1 sig2 : List Nat) : ℚ :=
  if sig1.length ≠ sig2.length then 0
  else (((sig1.zip sig2).countP (fun p => decide (p.1 = p.2)) : Nat) : ℚ) /
    ((sig1.length : Nat) : ℚ)

/-- Model of `NewsDeduplicator.content_overlap` (lines 120-128). -/
def content_overlap (L : Libs) (content1 content2 : String) : ℚ :=
  jaccard_similarity_minhash (minhash_signature L (get_shingles L content1))
    (minhash_signature L (get_shingles L content2))

/-- The signed per-bit vote of `simhash` (lines 145-152): over all words, add
1 when bit `i` of the word's md5 hash is set, else subtract 1. -/
def simhashFeature (L : Libs) (words : List String) (i : Nat) : Int :=
  words.foldl (fun acc w => if (L.md5 w >>> i) &&& 1 == 1 then acc + 1 else acc - 1) 0

/-- Model of `NewsDeduplicator.simhash` (lines 134-160): 0 when the word list
is empty, otherwise set output bit `i` exactly when the accumulated vote for
bit `i` is positive. -/
def simhash (L : Libs) (text : String) : Nat :=
  let t := unicode_normalize L text
  let words := L.jieba t
  if words = [] then 0
  else (List.range 64).foldl
    (fun acc i => if 0 < simhashFeature L words i then acc ||| (1 <<< i) else acc) 0

/-- Number of set bits of a natural number (Python's
`bin(x).count('1')`). -/
def popcount (n : Nat) : Nat :=
  if h : n = 0 then 0
  else popcount (n / 2) + n % 2
termination_by n
decreasing_by exact Nat.div_lt_self (Nat.pos_of_ne_zero h) (by decide)

/-- Model of `NewsDeduplicator.hamming_distance` (lines 162-164). -/
def hamming_distance (hash1 hash2 : Nat) : Nat :=
  popcount (hash1 ^^^ hash2)

/-- Model of `NewsDeduplicator.semantic_similarity` (lines 166-170): the
Hamming distance between the two SimHash fingerprints. -/
def semantic_similarity (L : Libs) (content1 content2 : String) : Nat :=
  hamming_distance (simhash L content1) (simhash L content2)

/-- Title threshold (`self.title_threshold = 0.8`). -/
def title_threshold : ℚ := 4 / 5

/-- Content threshold (`self.content_threshold = 0.75`). -/
def content_threshold : ℚ := 3 / 4

/-- SimHash distance threshold (`self.simhash_threshold = 3`). -/
def simhash_threshold : Nat := 3

/-- The title a record is compared by:
`item.get('title', '') or item.get('doc', '')[:100]` (lines 175-176) — the
title field when non-empty, else the first 100 characters of the body. -/
def resolvedTitle (it : Item) : String :=
  if it.title ≠ "" then it.title else it.doc.take 100

/-- Model of `NewsDeduplicator.is_duplicate` (lines 172-188): duplicate iff
title similarity exceeds 0.8, content overlap exceeds 0.75 and the SimHash
Hamming distance is at most 3. -/
def is_duplicate (L : Libs) (item1 item2 : Item) : Bool :=
  decide (title_similarity L (resolvedTitle item1) (resolvedTitle item2) > title_threshold) &&
  decide (content_overlap L item1.doc item2.doc > content_threshold) &&
  decide (semantic_similarity L item1.doc item2.doc ≤ simhash_threshold)

/-- The inner loop of `deduplicate` (lines 249-253): scan the kept items in
insertion order and stop at the first one the candidate duplicates. -/
def scanDup (L : Libs) (cur : Item) : List Item → Bool
  | [] => false
  | u :: rest => if is_duplicate L cur u then true else scanDup L cur rest

/-- The outer loop of `deduplicate` (lines 245-256): `acc` is
`unique_items`; a candidate that matches a kept item is dropped, otherwise it
is appended. -/
def dedupLoop (L : Libs) : List Item → List Item → List Item
  | acc, [] => acc
  | acc, cur :: rest =>
    if scanDup L cur acc then dedupLoop L acc rest
    else dedupLoop L (acc ++ [cur]) rest

/-- Model of `NewsDeduplicator.deduplicate` (lines 239-263). -/
def deduplicate (L : Libs) (data : List Item) : List Item :=
  dedupLoop L [] data

/-- A CSV row as consumed by `load_and_preprocess_data` (lines 201-216),
with each cell already passed through `str(...)` (a missing column is the
empty string; pandas NaN cells, which `str` would render as `"nan"`, are out
of scope for the properties proved here). -/
structure CsvRow where
  article : String := ""
  textrankSummary : String := ""
  articleTitle : String := ""
  stockSymbol : String := ""
  riskDeepseek : String := ""
  date : String := ""
deriving DecidableEq

/-- The record built from one CSV row (lines 201-226): body text prefers
`Article` over `Textrank_summary`, the title prefers `Article_title` over
`Stock_symbol`, both normalised; the label is `risk_score:` followed by the
risk cell. -/
def processRow (L : Libs) (idx : Nat) (r : CsvRow) : Item :=
  { source := "local_csv"
    doc := unicode_normalize L (if r.article ≠ "" then r.article else r.textrankSummary)
    labels := "risk_score:" ++ r.riskDeepseek
    title := unicode_normalize L (if r.articleTitle ≠ "" then r.articleTitle else r.stockSymbol)
    stockSymbol := r.stockSymbol
    date := r.date
    originalIndex := idx }

/-- Model of `NewsDeduplicator.load_and_preprocess_data` (lines 190-237),
restricted to the per-row processing: rows are turned into records and only
records with a non-empty normalised body are kept (line 228:
`if processed_item['doc']`).  File reading and its fail-fast error path
return an empty list and are outside this model. -/
def load_and_preprocess_data (L : Libs) (rows : List CsvRow) : List Item :=
  ((rows.enum).map (fun p => processRow L p.1 p.2)).filter (fun it => it.doc != "")

/-- Facts about `unicodedata.normalize('NFKC', .)` used in the proofs: NFKC
is the identity on strings built only from stable characters (CJK unified
ideographs U+4E00..U+9FA5, ASCII digits, letters and the six punctuation
marks have no compatibility or canonical decomposition, none of them is a
combining character, and no pair of them composes). -/
structure NfkcFacts (L : Libs) : Prop where
  fixed_of_stable : ∀ s : String, (∀ c ∈ s.data, stableChar c = true) → L.nfkc s = s

/-- Facts about scikit-learn's per-pair TF-IDF cosine similarity used in the
proofs, all of them properties of `TfidfVectorizer(max_features=1000)` with
its default tokenizer followed by `cosine_similarity`:
`fit_transform` raises (empty vocabulary) exactly when neither document
yields a token; on a pair of identical tokenisable documents the two rows are
equal and non-zero, so their cosine is 1; and the result is independent of
the document order (vocabulary, document frequencies and per-document rows do
not depend on the order of the two documents). -/
structure SklearnFacts (L : Libs) : Prop where
  fail_iff : ∀ t1 t2, L.fitCos t1 t2 = none ↔
    (sklearnTokens t1 = [] ∧ sklearnTokens t2 = [])
  self_one : ∀ t, sklearnTokens t ≠ [] → L.fitCos t t = some 1
  symm : ∀ t1 t2, L.fitCos t1 t2 = L.fitCos t2 t1

/-- A concrete, computable instantiation of the library oracle, used to
evaluate the model on closed inputs.  `nfkc` is the identity (correct on all
NFKC-stable strings, in particular on every ASCII/CJK string appearing in the
concrete inputs below); `jieba` and `md5` are simple stand-ins (no theorem
below depends on their values); `fitCos` satisfies `SklearnFacts`. -/
def concreteLibs : Libs where
  nfkc := fun s => s
  jieba := fun s => [s]
  md5 := fun s => s.length
  fitCos := fun a b =>
    if (sklearnTokens a).isEmpty && (sklearnTokens b).isEmpty then none
    else some (if a == b then 1 else 0)

/-! ### Levenshtein table lemmas -/

/-- Column 0 of the table is the row index. -/
theorem dpTab_zero_right (s1 s2 : List Char) (j : Nat) : dpTab s1 s2 j 0 = j := by
  cases j <;> rfl

/-- The Levenshtein table is symmetric under swapping the two strings and
transposing the indices. -/
theorem dpTab_symm (s1 s2 : List Char) : ∀ i j, dpTab s1 s2 i j = dpTab s2 s1 j i := by
  intro i
  induction i with
  | zero =>
    intro j
    rw [dpTab_zero_right]
    rfl
  | succ i ih =>
    intro j
    induction j with
    | zero => rfl
    | succ j ihj =>
      show dpNext s1 s2 i (dpTab s1 s2 i) (j + 1) = dpNext s2 s1 j (dpTab s2 s1 j) (i + 1)
      have e1 : dpNext s1 s2 i (dpTab s1 s2 i) j = dpTab s1 s2 (i + 1) j := rfl
      have e2 : dpNext s2 s1 j (dpTab s2 s1 j) i = dpTab s2 s1 (j + 1) i := rfl
      simp only [dpNext]
      rw [e1, e2, ih j, ih (j + 1), ihj]
      by_cases hc : s1.getD i spaceChar = s2.getD j spaceChar
      · rw [if_pos hc, if_pos hc.symm]
      · rw [if_neg hc, if_neg (fun h => hc h.symm), min_left_comm]

/-- The diagonal of the self-table is zero: a string needs no edits into
itself. -/
theorem dpTab_self_diag (l : List Char) : ∀ i, dpTab l l i i = 0 := by
  intro i
  induction i with
  | zero => rfl
  | succ i ih =>
    show dpNext l l i (dpTab l l i) (i + 1) = 0
    simp only [dpNext]
    simpa using ih

/-- A non-empty string has positive length. -/
theorem string_length_pos {t : String} (h : t ≠ "") : 0 < t.length := by
  cases t with
  | mk l =>
    cases l with
    | nil => exact absurd rfl h
    | cons c cs => simp [String.length]

/-- Self-similarity of the edit-distance component. -/
theorem edit_distance_self (t : String) (h : t ≠ "") : edit_distance t t = 1 := by
  simp only [edit_distance]
  rw [if_neg (by simp [h]), dpTab_self_diag, max_self, if_pos (string_length_pos h)]
  rw [Nat.cast_zero, zero_div, sub_zero]

/-- Symmetry of the edit-distance component. -/
theorem edit_distance_symm (s1 s2 : String) : edit_distance s1 s2 = edit_distance s2 s1 := by
  simp only [edit_distance]
  by_cases h : s1 = "" ∨ s2 = ""
  · have h1 : s2 = "" ∨ s1 = "" := h.symm
    rw [if_pos h, if_pos h1]
  · have h2 : ¬(s2 = "" ∨ s1 = "") := fun hc => h hc.symm
    rw [if_neg h, if_neg h2, dpTab_symm, max_comm]

/-! ### MinHash / Jaccard lemmas -/

/-- Every position of the zip of a list with itself agrees. -/
theorem countP_zip_self (l : List Nat) :
    (l.zip l).countP (fun p => decide (p.1 = p.2)) = l.length := by
  induction l with
  | nil => rfl
  | cons a t ih => simp [List.countP_cons, ih]

/-- Counting agreeing positions is symmetric in the two signatures. -/
theorem countP_zip_comm (l1 : List Nat) : ∀ l2 : List Nat,
    (l1.zip l2).countP (fun p => decide (p.1 = p.2)) =
      (l2.zip l1).countP (fun p => decide (p.1 = p.2)) := by
  induction l1 with
  | nil => intro l2; cases l2 <;> rfl
  | cons a t ih =>
    intro l2
    cases l2 with
    | nil => rfl
    | cons b t2 =>
      simp only [List.zip_cons_cons, List.countP_cons, ih t2]
      rw [decide_eq_decide.mpr (eq_comm (a := a) (b := b))]

/-- The MinHash-estimated Jaccard similarity is symmetric. -/
theorem jaccard_symm (s1 s2 : List Nat) :
    jaccard_similarity_minhash s1 s2 = jaccard_similarity_minhash s2 s1 := by
  unfold jaccard_similarity_minhash
  by_cases h : s1.length = s2.length
  · rw [if_neg (by simp [h]), if_neg (by simp [h]), countP_zip_comm, h]
  · rw [if_pos h, if_pos (Ne.symm h)]

/-- A non-empty signature estimates Jaccard similarity 1 with itself. -/
theorem jaccard_self (sig : List Nat) (h : sig ≠ []) :
    jaccard_similarity_minhash sig sig = 1 := by
  unfold jaccard_similarity_minhash
  rw [if_neg (by simp), countP_zip_self]
  exact div_self (Nat.cast_ne_zero.mpr (Nat.pos_iff_ne_zero.mp (List.length_pos.mpr h)))

/-- Every MinHash signature has length 128 (one entry per permutation). -/
theorem minhash_signature_length (L : Libs) (shingles : List String) :
    (minhash_signature L shingles).length = minhash_permutations := by
  cases shingles <;> simp [minhash_signature]

/-- The shingle set is never empty: a text with fewer than 3 words yields the
singleton containing the whole normalised text, and a text with at least 3
words yields at least one 3-word window. -/
theorem get_shingles_ne_nil (L : Libs) (text : String) : get_shingles L text ≠ [] := by
  unfold get_shingles
  by_cases h : (L.jieba (unicode_normalize L text)).length < 3
  · simp [h]
  · simp [h, List.range_eq_nil]

/-- Content overlap of a text with itself is exactly 1. -/
theorem content_overlap_self (L : Libs) (x : String) : content_overlap L x x = 1 := by
  unfold content_overlap
  apply jaccard_self
  intro hnil
  have hlen := minhash_signature_length L (get_shingles L x)
  rw [hnil] at hlen
  simp [minhash_permutations] at hlen

/-- Content overlap is symmetric. -/
theorem content_overlap_symm (L : Libs) (a b : String) :
    content_overlap L a b = content_overlap L b a := by
  unfold content_overlap
  exact jaccard_symm _ _

/-! ### SimHash lemmas -/

/-- The bit-count of zero is zero. -/
theorem popcount_zero : popcount 0 = 0 := by
  simp [popcount]

/-- A fingerprint is at Hamming distance 0 from itself. -/
theorem hamming_distance_self (h : Nat) : hamming_distance h h = 0 := by
  unfold hamming_distance
  rw [Nat.xor_self]
  exact popcount_zero

/-- Semantic distance of a text to itself is 0. -/
theorem semantic_similarity_self (L : Libs) (x : String) :
    semantic_similarity L x x = 0 := by
  unfold semantic_similarity
  exact hamming_distance_self _

/-- Semantic distance is symmetric. -/
theorem semantic_similarity_symm (L : Libs) (a b : String) :
    semantic_similarity L a b = semantic_similarity L b a := by
  unfold semantic_similarity hamming_distance
  rw [Nat.xor_comm]

/-! ### Deduplication loop lemmas -/

/-- The short-circuit scan computes existence of a duplicate among the kept
items. -/
theorem scanDup_eq_any (L : Libs) (cur : Item) : ∀ us : List Item,
    scanDup L cur us = us.any (fun u => is_duplicate L cur u) := by
  intro us
  induction us with
  | nil => rfl
  | cons u rest ih =>
    by_cases h : is_duplicate L cur u = true
    · simp [scanDup, h]
    · simp only [Bool.not_eq_true] at h
      simp [scanDup, h, ih]

/-- The scan stops at the first matching kept item: everything after it is
ignored. -/
theorem scanDup_stops (L : Libs) (cur u : Item) (hdup : is_duplicate L cur u = true) :
    ∀ us1 us2 : List Item,
      scanDup L cur (us1 ++ u :: us2) = true ∧
      scanDup L cur (us1 ++ u :: us2) = scanDup L cur (us1 ++ [u]) := by
  intro us1
  induction us1 with
  | nil =>
    intro us2
    constructor <;> simp [scanDup, hdup]
  | cons a t ih =>
    intro us2
    by_cases h : is_duplicate L cur a = true
    · constructor <;> simp [scanDup, h]
    · simp only [Bool.not_eq_true] at h
      have h1 := ih us2
      have h2 := ih []
      constructor <;> simp [scanDup, h, h1.1, h1.2, h2.1]

/-- Each step of the outer loop: a matched candidate is dropped, an unmatched
one is appended to the kept list. -/
theorem dedupLoop_step (L : Libs) (acc : List Item) (cur : Item) (rest : List Item) :
    (scanDup L cur acc = true → dedupLoop L acc (cur :: rest) = dedupLoop L acc rest) ∧
    (scanDup L cur acc = false →
      dedupLoop L acc (cur :: rest) = dedupLoop L (acc ++ [cur]) rest) := by
  constructor
  · intro h
    simp [dedupLoop, h]
  · intro h
    simp [dedupLoop, h]

/-- The loop only ever appends to the kept list, and what it appends is a
subsequence of the remaining input. -/
theorem dedupLoop_append (L : Libs) : ∀ data acc : List Item,
    ∃ t, dedupLoop L acc data = acc ++ t ∧ List.Sublist t data := by
  intro data
  induction data with
  | nil =>
    intro acc
    exact ⟨[], by simp [dedupLoop], List.nil_sublist _⟩
  | cons cur rest ih =>
    intro acc
    by_cases h : scanDup L cur acc = true
    · obtain ⟨t, ht, hs⟩ := ih acc
      exact ⟨t, by simp [dedupLoop, h, ht], hs.cons cur⟩
    · simp only [Bool.not_eq_true] at h
      obtain ⟨t, ht, hs⟩ := ih (acc ++ [cur])
      refine ⟨cur :: t, ?_, hs.cons₂ cur⟩
      simp only [dedupLoop, h, if_false, Bool.false_eq_true]
      rw [ht, List.append_assoc]
      rfl

/-- Relation between a kept item `u` and a later item `r` of the output: `r`
was found not to duplicate `u`. -/
def notDupOf (L : Libs) (u r : Item) : Prop := is_duplicate L r u = false

/-- Every output of the loop is pairwise clean: no later element duplicates
an earlier one (provided the initial kept list is). -/
theorem dedupLoop_pairwise (L : Libs) : ∀ data acc : List Item,
    acc.Pairwise (notDupOf L) → (dedupLoop L acc data).Pairwise (notDupOf L) := by
  intro data
  induction data with
  | nil =>
    intro acc hacc
    simpa [dedupLoop] using hacc
  | cons cur rest ih =>
    intro acc hacc
    by_cases h : scanDup L cur acc = true
    · simp only [dedupLoop, h, if_true]
      exact ih acc hacc
    · simp only [Bool.not_eq_true] at h
      simp only [dedupLoop, h, Bool.false_eq_true, if_false]
      apply ih
      rw [List.pairwise_append]
      refine ⟨hacc, List.pairwise_singleton _ _, ?_⟩
      intro u hu b hb
      rw [List.mem_singleton] at hb
      rw [hb]
      show is_duplicate L cur u = false
      rw [scanDup_eq_any] at h
      cases hval : is_duplicate L cur u with
      | false => rfl
      | true => exact absurd (List.any_eq_true.mpr ⟨u, hu, hval⟩) (by simp [h])

/-- On a pairwise-clean input whose elements do not duplicate anything
already kept, the loop appends the whole input unchanged. -/
theorem dedupLoop_of_pairwise (L : Libs) : ∀ data acc : List Item,
    data.Pairwise (notDupOf L) →
    (∀ r ∈ data, ∀ u ∈ acc, is_duplicate L r u = false) →
    dedupLoop L acc data = acc ++ data := by
  intro data
  induction data with
  | nil =>
    intro acc _ _
    simp [dedupLoop]
  | cons cur rest ih =>
    intro acc hpw hclean
    rw [List.pairwise_cons] at hpw
    have hscan : scanDup L cur acc = false := by
      rw [scanDup_eq_any]
      rw [List.any_eq_false]
      intro u hu
      simp [hclean cur (List.mem_cons_self _ _) u hu]
    simp only [dedupLoop, hscan, Bool.false_eq_true, if_false]
    rw [ih (acc ++ [cur]) hpw.2]
    · simp
    · intro r hr u hu
      rw [List.mem_append, List.mem_singleton] at hu
      cases hu with
      | inl h => exact hclean r (List.mem_cons_of_mem _ hr) u h
      | inr h =>
        subst h
        exact hpw.1 r hr

/-! ### Normalisation lemmas -/

/-- Membership in `dropWhile` implies membership in the original list. -/
theorem mem_of_mem_dropWhile {α : Type} (p : α → Bool) :
    ∀ (l : List α) (a : α), a ∈ l.dropWhile p → a ∈ l := by
  intro l
  induction l with
  | nil => intro a h; simp at h
  | cons b t ih =>
    intro a h
    by_cases hp : p b = true
    · rw [List.dropWhile_cons_of_pos hp] at h
      exact List.mem_cons_of_mem _ (ih a h)
    · rw [List.dropWhile_cons_of_neg hp] at h
      exact h

/-- Membership in `pyStrip` implies membership in the original list. -/
theorem mem_of_mem_pyStrip (l : List Char) (c : Char) (h : c ∈ pyStrip l) : c ∈ l := by
  unfold pyStrip at h
  rw [List.mem_reverse] at h
  have h1 := mem_of_mem_dropWhile isPyWS _ _ h
  rw [List.mem_reverse] at h1
  exact mem_of_mem_dropWhile isPyWS _ _ h1

/-- The only whitespace character the collapsing step can emit is the plain
space. -/
theorem squeezeWS_ws_eq_space : ∀ l : List Char, ∀ c ∈ squeezeWS l,
    isPyWS c = true → c = spaceChar := by
  intro l
  induction l with
  | nil => simp [squeezeWS]
  | cons a t ih =>
    cases t with
    | nil =>
      intro c hc hw
      by_cases ha : isPyWS a = true
      · simp only [squeezeWS, ha, if_true, List.mem_singleton] at hc
        exact hc
      · simp only [squeezeWS, ha, Bool.false_eq_true, if_false, List.mem_singleton] at hc
        rw [hc] at hw
        exact absurd hw ha
    | cons b t2 =>
      intro c hc hw
      by_cases ha : isPyWS a = true
      · by_cases hb : isPyWS b = true
        · simp only [squeezeWS, ha, hb, if_true] at hc
          exact ih c hc hw
        · simp only [squeezeWS, ha, hb, Bool.false_eq_true, if_false, if_true,
            List.mem_cons] at hc
          cases hc with
          | inl h => exact h
          | inr h => exact ih c h hw
      · simp only [squeezeWS, ha, Bool.false_eq_true, if_false, List.mem_cons] at hc
        cases hc with
        | inl h =>
          rw [h] at hw
          exact absurd hw ha
        | inr h => exact ih c h hw

/-- Every character of a normalised string is in the allowed classes, and any
whitespace among them is the plain space. -/
theorem unicode_normalize_chars (L : Libs) (s : String) :
    ∀ c ∈ (unicode_normalize L s).data, isAllowed c = true ∧
      (isPyWS c = true → c = spaceChar) := by
  intro c hc
  unfold unicode_normalize at hc
  by_cases h : s = ""
  · rw [if_pos h] at hc
    simp at hc
  · rw [if_neg h] at hc
    have hc2 : c ∈ (pyStrip (squeezeWS (L.nfkc s).data)).filter isAllowed := hc
    rw [List.mem_filter] at hc2
    refine ⟨hc2.2, ?_⟩
    exact squeezeWS_ws_eq_space _ c (mem_of_mem_pyStrip _ _ hc2.1)

/-- Allowed characters whose only whitespace form is the space are stable. -/
theorem stableChar_of (c : Char) (h1 : isAllowed c = true)
    (h2 : isPyWS c = true → c = spaceChar) : stableChar c = true := by
  unfold stableChar
  by_cases hw : isPyWS c = true
  · simp [h2 hw]
  · simp only [Bool.not_eq_true] at hw
    simp [h1, hw]

/-- Collapsing is a no-op on a list whose whitespace is all plain spaces with
no two adjacent. -/
theorem squeezeWS_fixed : ∀ l : List Char,
    (∀ c ∈ l, isPyWS c = true → c = spaceChar) → noDoubleWS l = true →
    squeezeWS l = l := by
  intro l
  induction l with
  | nil => intro _ _; rfl
  | cons a t ih =>
    cases t with
    | nil =>
      intro hsp _
      by_cases ha : isPyWS a = true
      · simp [squeezeWS, ha, (hsp a (List.mem_singleton_self a) ha).symm]
      · simp [squeezeWS, ha]
    | cons b t2 =>
      intro hsp hnd
      unfold noDoubleWS at hnd
      rw [Bool.and_eq_true] at hnd
      have hih := ih (fun c hc hw => hsp c (List.mem_cons_of_mem _ hc) hw) hnd.2
      by_cases ha : isPyWS a = true
      · have hb : isPyWS b = false := by
          cases hval : isPyWS b with
          | false => rfl
          | true => simp [ha, hval] at hnd
        simp only [squeezeWS, ha, hb, Bool.false_eq_true, if_false, if_true, hih]
        rw [(hsp a (List.mem_cons_self _ _) ha)]
      · simp only [squeezeWS, ha, Bool.false_eq_true, if_false, hih]

/-- Stripping is a no-op on a list with no leading or trailing whitespace. -/
theorem pyStrip_fixed (l : List Char) (h : noEdgeWS l = true) : pyStrip l = l := by
  unfold noEdgeWS at h
  rw [Bool.and_eq_true] at h
  unfold pyStrip
  have h1 : l.dropWhile isPyWS = l := by
    cases l with
    | nil => rfl
    | cons a t =>
      have ha := h.1
      simp only [Bool.not_eq_true'] at ha
      rw [List.dropWhile_cons_of_neg (by simp [ha])]
  rw [h1]
  have h2 : l.reverse.dropWhile isPyWS = l.reverse := by
    cases hrev : l.reverse with
    | nil => rfl
    | cons a t =>
      have ha := h.2
      rw [hrev] at ha
      simp only [Bool.not_eq_true'] at ha
      rw [List.dropWhile_cons_of_neg (by simp [ha])]
  rw [h2, List.reverse_reverse]

/-! ### Title similarity lemmas -/

/-- Self-similarity of the title signal: when the normalised title is
non-empty and tokenisable, the edit component is 1 and the cosine component
is 1, so the average is 1. -/
theorem title_similarity_self (L : Libs) (hfit : SklearnFacts L) (x : String)
    (hne : unicode_normalize L x ≠ "")
    (htok : sklearnTokens (unicode_normalize L x) ≠ []) :
    title_similarity L x x = 1 := by
  simp only [title_similarity]
  rw [if_pos ⟨hne, hne⟩]
  unfold text_to_tfidf_cos
  rw [hfit.self_one _ htok, edit_distance_self _ hne]
  norm_num

/-- Symmetry of the title signal, given that the TF-IDF cosine oracle is
symmetric. -/
theorem title_similarity_symm (L : Libs)
    (hsym : ∀ t1 t2, L.fitCos t1 t2 = L.fitCos t2 t1) (a b : String) :
    title_similarity L a b = title_similarity L b a := by
  simp only [title_similarity]
  rw [edit_distance_symm]
  have hc : text_to_tfidf_cos L (unicode_normalize L a) (unicode_normalize L b) =
      text_to_tfidf_cos L (unicode_normalize L b) (unicode_normalize L a) := by
    unfold text_to_tfidf_cos
    rw [hsym]
  rw [if_congr and_comm hc rfl]

/-! ### Facts about the concrete library instantiation -/

/-- The identity NFKC stand-in trivially satisfies the NFKC facts. -/
theorem concreteLibs_nfkcFacts : NfkcFacts concreteLibs :=
  ⟨fun _ _ => rfl⟩

/-- The concrete cosine stand-in satisfies the scikit-learn facts. -/
theorem concreteLibs_sklearnFacts : SklearnFacts concreteLibs := by
  constructor
  · intro t1 t2
    constructor
    · intro h
      by_cases hc : ((sklearnTokens t1).isEmpty && (sklearnTokens t2).isEmpty) = true
      · rw [Bool.and_eq_true] at hc
        exact ⟨List.isEmpty_iff.mp hc.1, List.isEmpty_iff.mp hc.2⟩
      · have : concreteLibs.fitCos t1 t2 =
            some (if t1 == t2 then (1 : ℚ) else 0) := if_neg hc
        rw [this] at h
        exact absurd h (by simp)
    · intro h
      show (if (sklearnTokens t1).isEmpty && (sklearnTokens t2).isEmpty then none
            else some (if t1 == t2 then (1 : ℚ) else 0)) = none
      rw [if_pos]
      rw [Bool.and_eq_true]
      exact ⟨List.isEmpty_iff.mpr h.1, List.isEmpty_iff.mpr h.2⟩
  · intro t htok
    have hne : (sklearnTokens t).isEmpty = false := by
      cases hval : (sklearnTokens t).isEmpty with
      | false => rfl
      | true => exact absurd (List.isEmpty_iff.mp hval) htok
    show (if (sklearnTokens t).isEmpty && (sklearnTokens t).isEmpty then none
          else some (if t == t then (1 : ℚ) else 0)) = some 1
    rw [hne]
    simp
  · intro t1 t2
    show (if (sklearnTokens t1).isEmpty && (sklearnTokens t2).isEmpty then none
          else some (if t1 == t2 then (1 : ℚ) else 0)) =
         (if (sklearnTokens t2).isEmpty && (sklearnTokens t1).isEmpty then none
          else some (if t2 == t1 then (1 : ℚ) else 0))
    have hv : (t1 == t2) = (t2 == t1) := by
      by_cases h : t1 = t2
      · rw [h]
      · have h1 : (t1 == t2) = false := beq_eq_false_iff_ne.mpr h
        have h2 : (t2 == t1) = false := beq_eq_false_iff_ne.mpr (Ne.symm h)
        rw [h1, h2]
    rw [Bool.and_comm, hv]

/-! ### The concrete scenario of the specification

The three records of the spec scenario: two identical records titled `"A"`
and a third, unrelated record titled `"B"`. -/

/-- First scenario record. -/
def rec1 : Item := { title := "A", doc := "苹果公司发布新产品" }

/-- Second scenario record (identical to the first). -/
def rec2 : Item := { title := "A", doc := "苹果公司发布新产品" }

/-- Third scenario record. -/
def rec3 : Item := { title := "B", doc := "特斯拉交付创纪录" }

/-- The title `"A"` compared with itself: the edit component is 1. -/
theorem edit_distance_A_A : edit_distance "A" "A" = 1 := by
  have hd : dpTab "A".data "A".data "A".length "A".length = 0 := by decide
  have hne : ¬(("A" : String) = "" ∨ ("A" : String) = "") := by decide
  simp only [edit_distance]
  rw [if_neg hne, hd]
  have hl : "A".length = 1 := rfl
  rw [hl]
  norm_num

/-- The single-character title `"A"` yields no TF-IDF token (the default
token pattern requires at least two word characters), so the vectorizer
fails, the cosine degrades to 0 and the title similarity is only 1/2. -/
theorem title_similarity_A_A : title_similarity concreteLibs "A" "A" = 1 / 2 := by
  have hn : unicode_normalize concreteLibs "A" = "A" := rfl
  have hne : ("A" : String) ≠ "" := by decide
  have hcos : text_to_tfidf_cos concreteLibs "A" "A" = 0 := rfl
  simp only [title_similarity, hn]
  rw [if_pos ⟨hne, hne⟩, hcos, edit_distance_A_A]
  norm_num

/-- The titles `"B"` and `"A"`: edit component 0. -/
theorem edit_distance_B_A : edit_distance "B" "A" = 0 := by
  have hd : dpTab "B".data "A".data "B".length "A".length = 1 := by decide
  have hne : ¬(("B" : String) = "" ∨ ("A" : String) = "") := by decide
  simp only [edit_distance]
  rw [if_neg hne, hd]
  have hl : "B".length = 1 := rfl
  have hl2 : "A".length = 1 := rfl
  rw [hl, hl2]
  norm_num

/-- The titles `"B"` and `"A"`: both signals degrade, total similarity 0. -/
theorem title_similarity_B_A : title_similarity concreteLibs "B" "A" = 0 := by
  have hn : unicode_normalize concreteLibs "B" = "B" := rfl
  have hn2 : unicode_normalize concreteLibs "A" = "A" := rfl
  have hne : ("B" : String) ≠ "" := by decide
  have hne2 : ("A" : String) ≠ "" := by decide
  have hcos : text_to_tfidf_cos concreteLibs "B" "A" = 0 := rfl
  simp only [title_similarity, hn, hn2]
  rw [if_pos ⟨hne, hne2⟩, hcos, edit_distance_B_A]
  norm_num

/-- Record 2 does NOT duplicate record 1, despite identical titles and
bodies: the title similarity 1/2 misses the 0.8 threshold. -/
theorem is_duplicate_rec2_rec1 : is_duplicate concreteLibs rec2 rec1 = false := by
  have hr : resolvedTitle rec2 = "A" := rfl
  have hr1 : resolvedTitle rec1 = "A" := rfl
  have hfalse : ¬(title_similarity concreteLibs "A" "A" > title_threshold) := by
    rw [title_similarity_A_A, title_threshold]
    norm_num
  simp only [is_duplicate, hr, hr1, decide_eq_false hfalse, Bool.false_and]

/-- Record 3 does not duplicate record 1. -/
theorem is_duplicate_rec3_rec1 : is_duplicate concreteLibs rec3 rec1 = false := by
  have hr : resolvedTitle rec3 = "B" := rfl
  have hr1 : resolvedTitle rec1 = "A" := rfl
  have hfalse : ¬(title_similarity concreteLibs "B" "A" > title_threshold) := by
    rw [title_similarity_B_A, title_threshold]
    norm_num
  simp only [is_duplicate, hr, hr1, decide_eq_false hfalse, Bool.false_and]

/-- Record 3 does not duplicate record 2. -/
theorem is_duplicate_rec3_rec2 : is_duplicate concreteLibs rec3 rec2 = false := by
  have hr : resolvedTitle rec3 = "B" := rfl
  have hr1 : resolvedTitle rec2 = "A" := rfl
  have hfalse : ¬(title_similarity concreteLibs "B" "A" > title_threshold) := by
    rw [title_similarity_B_A, title_threshold]
    norm_num
  simp only [is_duplicate, hr, hr1, decide_eq_false hfalse, Bool.false_and]

/-- Running the deduplicator on the scenario input keeps all three records:
record 2 is NOT dropped. -/
theorem deduplicate_scenario :
    deduplicate concreteLibs [rec1, rec2, rec3] = [rec1, rec2, rec3] := by
  simp only [deduplicate, dedupLoop, scanDup, is_duplicate_rec2_rec1,
    is_duplicate_rec3_rec1, is_duplicate_rec3_rec2]
  simp

/-! ### Claim theorems -/

/-- C1 (counterexample): records 1 and 2 have identical (non-empty,
normalised) titles and identical bodies, yet `is_duplicate` does NOT
classify them as duplicates, and `deduplicate` keeps all three scenario
records instead of dropping record 2: the single-character title `"A"`
survives no TF-IDF tokenization, the vectorizer fails, the cosine signal
degrades to 0, and the title similarity 0.5 misses the 0.8 threshold. -/
theorem claim1_counterexample :
    rec1.title = rec2.title ∧ rec1.doc = rec2.doc ∧
    is_duplicate concreteLibs rec2 rec1 = false ∧
    deduplicate concreteLibs [rec1, rec2, rec3] = [rec1, rec2, rec3] ∧
    deduplicate concreteLibs [rec1, rec2, rec3] ≠ [rec1, rec3] := by
  refine ⟨rfl, rfl, is_duplicate_rec2_rec1, deduplicate_scenario, ?_⟩
  rw [deduplicate_scenario]
  decide

/-- C1 (amended): a pair of records with identical title and body fields IS
classified duplicate provided the resolved normalised title is non-empty and
yields at least one TF-IDF token (at least two word characters): then all
three signals sit at their extremes (title similarity 1, content overlap 1,
semantic distance 0). -/
theorem claim1_identical_records_duplicate (L : Libs) (hfit : SklearnFacts L)
    (i1 i2 : Item) (ht : i1.title = i2.title) (hd : i1.doc = i2.doc)
    (hne : unicode_normalize L (resolvedTitle i1) ≠ "")
    (htok : sklearnTokens (unicode_normalize L (resolvedTitle i1)) ≠ []) :
    is_duplicate L i1 i2 = true := by
  have hrt : resolvedTitle i2 = resolvedTitle i1 := by
    unfold resolvedTitle
    rw [ht, hd]
  unfold is_duplicate
  rw [hrt, hd]
  rw [title_similarity_self L hfit _ hne htok, content_overlap_self,
    semantic_similarity_self]
  simp only [Bool.and_eq_true, decide_eq_true_eq]
  exact ⟨⟨by norm_num [title_threshold], by norm_num [content_threshold]⟩,
    Nat.zero_le _⟩

/-- An identical record pair with a tokenisable title, for the C1 witness. -/
def itemSelf : Item := { title := "apple news", doc := "apple news body" }

/-- C1 (witness): the amended statement at a concrete record. -/
theorem claim1_witness : is_duplicate concreteLibs itemSelf itemSelf = true :=
  claim1_identical_records_duplicate concreteLibs concreteLibs_sklearnFacts
    itemSelf itemSelf rfl rfl (by decide) (by decide)

/-- C2: `is_duplicate` holds iff all of `titleSimilarity > 0.8`,
`contentOverlap > 0.75` and `semanticDistance <= 3` hold; the inner scan of
`deduplicate` computes existence of a duplicate over the kept items in
insertion order and stops at the first match; a matched candidate leaves the
kept list unchanged and an unmatched candidate is appended. -/
theorem claim2_threshold_rule_and_scan (L : Libs) (i1 i2 : Item) :
    (is_duplicate L i1 i2 = true ↔
      (title_similarity L (resolvedTitle i1) (resolvedTitle i2) > 4 / 5 ∧
       content_overlap L i1.doc i2.doc > 3 / 4 ∧
       semantic_similarity L i1.doc i2.doc ≤ 3)) ∧
    (∀ us cur, scanDup L cur us = us.any (fun u => is_duplicate L cur u)) ∧
    (∀ us1 u us2 cur, is_duplicate L cur u = true →
      scanDup L cur (us1 ++ u :: us2) = true ∧
      scanDup L cur (us1 ++ u :: us2) = scanDup L cur (us1 ++ [u])) ∧
    (∀ acc cur rest,
      (scanDup L cur acc = true → dedupLoop L acc (cur :: rest) = dedupLoop L acc rest) ∧
      (scanDup L cur acc = false →
        dedupLoop L acc (cur :: rest) = dedupLoop L (acc ++ [cur]) rest)) := by
  refine ⟨?_, fun us cur => scanDup_eq_any L cur us,
    fun us1 u us2 cur h => scanDup_stops L cur u h us1 us2,
    fun acc cur rest => dedupLoop_step L acc cur rest⟩
  simp only [is_duplicate, Bool.and_eq_true, decide_eq_true_eq, title_threshold,
    content_threshold, simhash_threshold, and_assoc]

/-- C2 (witness): the threshold characterisation at a concrete pair. -/
theorem claim2_witness :
    is_duplicate concreteLibs rec1 rec3 = true ↔
      (title_similarity concreteLibs (resolvedTitle rec1) (resolvedTitle rec3) > 4 / 5 ∧
       content_overlap concreteLibs rec1.doc rec3.doc > 3 / 4 ∧
       semantic_similarity concreteLibs rec1.doc rec3.doc ≤ 3) :=
  (claim2_threshold_rule_and_scan concreteLibs rec1 rec3).1

/-- C3: the output of `deduplicate` is a subsequence of its input, in the
original relative order. -/
theorem claim3_output_sublist (L : Libs) (data : List Item) :
    List.Sublist (deduplicate L data) data := by
  obtain ⟨t, ht, hs⟩ := dedupLoop_append L data []
  unfold deduplicate
  rw [ht]
  simpa using hs

/-- C4: `deduplicate` is idempotent — rerunning it on its own output removes
nothing further. -/
theorem claim4_idempotent (L : Libs) (data : List Item) :
    deduplicate L (deduplicate L data) = deduplicate L data := by
  have hpw : (dedupLoop L [] data).Pairwise (notDupOf L) :=
    dedupLoop_pairwise L data [] List.Pairwise.nil
  unfold deduplicate
  rw [dedupLoop_of_pairwise L (dedupLoop L [] data) [] hpw
    (by intro r _ u hu; simp at hu)]
  simp

/-- C5 (counterexample): normalization is NOT idempotent.  On `"a @ b"` the
character filter runs after whitespace collapsing and deletes the `@`,
leaving the double space `"a  b"`; a second application collapses it to
`"a b"`. -/
theorem claim5_counterexample :
    unicode_normalize concreteLibs (unicode_normalize concreteLibs "a @ b") ≠
      unicode_normalize concreteLibs "a @ b" := by
  decide

/-- C5 (amended): normalization is idempotent on every input whose
normalised form has no two adjacent whitespace characters and neither starts
nor ends with whitespace — i.e. whenever deleting the disallowed characters
did not create a new whitespace run or edge (NFKC is assumed to fix strings
of stable output characters, which is true of real NFKC). -/
theorem claim5_normalize_idempotent (L : Libs) (hn : NfkcFacts L) (s : String)
    (hnd : noDoubleWS (unicode_normalize L s).data = true)
    (hed : noEdgeWS (unicode_normalize L s).data = true) :
    unicode_normalize L (unicode_normalize L s) = unicode_normalize L s := by
  have key : ∀ t : String, t ≠ "" →
      (∀ c ∈ t.data, isAllowed c = true ∧ (isPyWS c = true → c = spaceChar)) →
      L.nfkc t = t → noDoubleWS t.data = true → noEdgeWS t.data = true →
      unicode_normalize L t = t := by
    intro t h0 hch hnfkc hnd2 hed2
    unfold unicode_normalize
    rw [if_neg h0, hnfkc]
    rw [squeezeWS_fixed t.data (fun c hc hw => (hch c hc).2 hw) hnd2]
    rw [pyStrip_fixed t.data hed2]
    rw [List.filter_eq_self.mpr (fun c hc => (hch c hc).1)]
  by_cases h0 : unicode_normalize L s = ""
  · rw [h0]
    rfl
  · have hch := unicode_normalize_chars L s
    have hnfkc : L.nfkc (unicode_normalize L s) = unicode_normalize L s :=
      hn.fixed_of_stable _ (fun c hc => stableChar_of c (hch c hc).1 (hch c hc).2)
    exact key _ h0 hch hnfkc hnd hed

/-- C5 (witness): the amended statement at a concrete clean input. -/
theorem claim5_witness :
    unicode_normalize concreteLibs (unicode_normalize concreteLibs "ab c") =
      unicode_normalize concreteLibs "ab c" :=
  claim5_normalize_idempotent concreteLibs concreteLibs_nfkcFacts "ab c"
    (by decide) (by decide)

/-- C6 (counterexample): `"A"` is non-empty after normalization, yet
`titleSimilarity("A","A")` is 1/2, not 1: the cosine component degrades to 0
because the one-character title yields no TF-IDF token. -/
theorem claim6_counterexample :
    unicode_normalize concreteLibs "A" ≠ "" ∧
    title_similarity concreteLibs "A" "A" ≠ 1 := by
  refine ⟨by decide, ?_⟩
  rw [title_similarity_A_A]
  norm_num

/-- C6 (amended): `titleSimilarity(x,x) = 1` holds for every `x` that is
non-empty after normalization AND whose normalised form yields at least one
TF-IDF token; `semanticDistance(y,y) = 0` holds for every `y`
unconditionally. -/
theorem claim6_self_similarity (L : Libs) (hfit : SklearnFacts L) (x : String)
    (hne : unicode_normalize L x ≠ "")
    (htok : sklearnTokens (unicode_normalize L x) ≠ []) :
    title_similarity L x x = 1 ∧ ∀ y : String, semantic_similarity L y y = 0 :=
  ⟨title_similarity_self L hfit x hne htok, fun y => semantic_similarity_self L y⟩

/-- C6 (witness): the amended statement at a concrete tokenisable title. -/
theorem claim6_witness : title_similarity concreteLibs "apple news" "apple news" = 1 :=
  (claim6_self_similarity concreteLibs concreteLibs_sklearnFacts "apple news"
    (by decide) (by decide)).1

/-- C7: all three signals are symmetric (for the title signal this uses that
the TF-IDF cosine of a two-document fit does not depend on the document
order, which holds for scikit-learn's vectorizer). -/
theorem claim7_symmetry (L : Libs)
    (hsym : ∀ t1 t2, L.fitCos t1 t2 = L.fitCos t2 t1) (a b : String) :
    title_similarity L a b = title_similarity L b a ∧
    content_overlap L a b = content_overlap L b a ∧
    semantic_similarity L a b = semantic_similarity L b a :=
  ⟨title_similarity_symm L hsym a b, content_overlap_symm L a b,
    semantic_similarity_symm L a b⟩

/-- C7 (witness): symmetry at a concrete pair of strings. -/
theorem claim7_witness :
    title_similarity concreteLibs "apple" "pear" =
      title_similarity concreteLibs "pear" "apple" ∧
    content_overlap concreteLibs "apple" "pear" =
      content_overlap concreteLibs "pear" "apple" ∧
    semantic_similarity concreteLibs "apple" "pear" =
      semantic_similarity concreteLibs "pear" "apple" :=
  claim7_symmetry concreteLibs concreteLibs_sklearnFacts.symm "apple" "pear"

/-- C8: when the TF-IDF vectorizer fails on the normalised title pair, the
cosine signal degrades to 0 (the all-zero fallback matrix) and
`title_similarity` still returns a value — half the edit similarity — so the
pair contributes a defined similarity instead of an exception. -/
theorem claim8_vectorizer_fallback (L : Libs) (t1 t2 : String)
    (hfail : L.fitCos (unicode_normalize L t1) (unicode_normalize L t2) = none) :
    text_to_tfidf_cos L (unicode_normalize L t1) (unicode_normalize L t2) = 0 ∧
    title_similarity L t1 t2 =
      edit_distance (unicode_normalize L t1) (unicode_normalize L t2) / 2 := by
  have hzero : text_to_tfidf_cos L (unicode_normalize L t1)
      (unicode_normalize L t2) = 0 := by
    unfold text_to_tfidf_cos
    rw [hfail]
  refine ⟨hzero, ?_⟩
  simp only [title_similarity]
  by_cases hc : unicode_normalize L t1 ≠ "" ∧ unicode_normalize L t2 ≠ ""
  · rw [if_pos hc, hzero, add_zero]
  · rw [if_neg hc, add_zero]

/-- C8 (witness): the fallback at the concrete failing pair `"A"`, `"B"`. -/
theorem claim8_witness :
    text_to_tfidf_cos concreteLibs (unicode_normalize concreteLibs "A")
      (unicode_normalize concreteLibs "B") = 0 ∧
    title_similarity concreteLibs "A" "B" =
      edit_distance (unicode_normalize concreteLibs "A")
        (unicode_normalize concreteLibs "B") / 2 :=
  claim8_vectorizer_fallback concreteLibs "A" "B" (by decide)

/-- C9: every record produced by `load_and_preprocess_data` has a non-empty
body, and hence so does every record of the deduplicated output — an
empty-body input row never appears, not even as a unique. -/
theorem claim9_nonempty_docs (L : Libs) (rows : List CsvRow) :
    (∀ it ∈ load_and_preprocess_data L rows, it.doc ≠ "") ∧
    (∀ it ∈ deduplicate L (load_and_preprocess_data L rows), it.doc ≠ "") := by
  have h1 : ∀ it ∈ load_and_preprocess_data L rows, it.doc ≠ "" := by
    intro it hit
    unfold load_and_preprocess_data at hit
    rw [List.mem_filter] at hit
    simpa using hit.2
  refine ⟨h1, ?_⟩
  intro it hit
  obtain ⟨t, ht, hs⟩ := dedupLoop_append L (load_and_preprocess_data L rows) []
  unfold deduplicate at hit
  rw [ht] at hit
  simp only [List.nil_append] at hit
  exact h1 it (hs.subset hit)

/-- A concrete CSV row with body text, for the C9 witness. -/
def row1 : CsvRow := { article := "hello world" }

/-- C9 (witness): the loaded record of a concrete row has a non-empty body. -/
theorem claim9_witness :
    ({ source := "local_csv", doc := "hello world", labels := "risk_score:",
       title := "", stockSymbol := "", date := "", originalIndex := 0 } : Item).doc ≠ "" :=
  (claim9_nonempty_docs concreteLibs [row1]).1 _ (by decide)

/-- C10: the shingle set of any text (empty texts included) is non-empty,
each MinHash signature has length 128, and consequently any text has content
overlap exactly 1 with itself; the all-zero sentinel branch for an empty
shingle set is unreachable through `content_overlap`. -/
theorem claim10_content_overlap_self (L : Libs) (x : String) :
    content_overlap L x x = 1 ∧
    get_shingles L x ≠ [] ∧
    (minhash_signature L (get_shingles L x)).length = 128 :=
  ⟨content_overlap_self L x, get_shingles_ne_nil L x,
    minhash_signature_length L (get_shingles L x)⟩

end NewsDedup
